import Mathlib

/-!
Shallow embedding of the core simulation logic of `combine-and-defend`
(`src/main.rs`): the dice bag inventory, the per-ship targeting system,
the ship movement controller, the collision handlers (planet, bump-ship,
destroy-ship), the mouse pick-up handler and the inventory event bus.

Modelling conventions:
* Entity identifiers are `Nat`; component lookups on a Bevy `Query` become
  association-list lookups (`List (Nat × _)`, `List.lookup`).
* `f32` world coordinates are modelled with exact integer coordinates
  (`Vec2` below); every comparison the source makes between a Euclidean
  `distance` and a nonnegative threshold is embedded as the equivalent
  comparison between the squared distance and the squared threshold
  (`dist p q ≤ r ↔ distSq p q ≤ r²` for `0 ≤ r`; see `dist_le_iff` and
  `dist_lt_iff` below).  Quantities that genuinely require square roots
  (the direction vectors produced by glam's `normalize_or_zero`) live
  in `ℝ`.
* `VecDeque<DiceNumber>` becomes `List DiceNumber` with its front at the
  head: `push_back` appends, `pop_front` takes the head.
* The per-frame nondeterministic RNG draw `rng.gen_range(0..6)` is passed
  in as an explicit `raw : Nat` parameter (uniform over `0..5`).
-/

namespace CombineDefend

/-- 2D point with exact integer coordinates (models the `x`/`y` components of
a bevy `Transform` translation; the source's `z` component is always `0.0`
and ignored by all distance computations relevant here). -/
structure Vec2 where
  x : ℤ
  y : ℤ
deriving DecidableEq, Repr

/-- Componentwise difference, models `a - b` on translations. -/
def vsub (a b : Vec2) : Vec2 := ⟨a.x - b.x, a.y - b.y⟩

/-- Squared Euclidean distance, models `Vec3::distance_squared` (and is the
square of `Vec3::distance`). -/
def distSq (a b : Vec2) : ℤ := (a.x - b.x) ^ 2 + (a.y - b.y) ^ 2

/-- Euclidean distance as a real number, models `Vec3::distance`. -/
noncomputable def dist (a b : Vec2) : ℝ := Real.sqrt ((distSq a b : ℤ) : ℝ)

/-- `const SHIP_SPEED: f32 = 2400.0`. -/
def SHIP_SPEED : ℤ := 2400

/-- `const SHIP_TRIGGER_MAX_DISTANCE: f32 = 400.0`. -/
def SHIP_TRIGGER_MAX_DISTANCE : ℤ := 400

/-- `const SHIP_BUMP_FORCE: f32 = 4.0`. -/
def SHIP_BUMP_FORCE : ℤ := 4

/-- `const SHIP_MAX_DISTANCE_FROM_PLANET_INTEREST: f32 = 500.0`. -/
def SHIP_MAX_DISTANCE_FROM_PLANET_INTEREST : ℤ := 500

/-- `const SHIP_PLANET_SIGHT: f32 = 100.0`. -/
def SHIP_PLANET_SIGHT : ℤ := 100

/-- The six die faces, models `enum DiceNumber`. -/
inductive DiceNumber
  | One
  | Two
  | Three
  | Four
  | Five
  | Six
deriving DecidableEq, Fintype, Repr

/-- Models `DiceNumber::from_rng`: the source draws `rng.gen_range(0..6)`
(uniform over `0..=5`) and maps it through the `match`; the wildcard arm
(`_ => DiceNumber::Six`) is the one that receives the raw draw `0`. -/
def DiceNumber.from_rng (raw : Nat) : DiceNumber :=
  match raw with
  | 1 => .One
  | 2 => .Two
  | 3 => .Three
  | 4 => .Four
  | 5 => .Five
  | _ => .Six

/-- The dice bag contents, front of the `VecDeque` at the head of the list. -/
abbrev DiceBag := List DiceNumber

/-- Models `DiceBag::push`: `self.bag.push_back(dice)`. -/
def DiceBag.push (bag : DiceBag) (dice : DiceNumber) : DiceBag := bag ++ [dice]

/-- Models `DiceBag::try_consume::<N>`: if the bag holds at least `n` values,
pop the `n` oldest (front) values in order and return them; otherwise return
`None` and leave the bag untouched.  The first component is the returned
`Option<[DiceNumber; N]>`, the second the bag afterwards. -/
def DiceBag.try_consume (n : Nat) (bag : DiceBag) : Option (List DiceNumber) × DiceBag :=
  if n ≤ bag.length then (some (bag.take n), bag.drop n) else (none, bag)

/-- Push a whole list of values in order (repeated `DiceBag::push`). -/
def pushAll (vs : List DiceNumber) (bag : DiceBag) : DiceBag :=
  vs.foldl DiceBag.push bag

/-- Call `try_consume::<1>` `n` times in a row, collecting the `n` results in
order together with the final bag. -/
def consumeRun : Nat → DiceBag → List (Option (List DiceNumber)) × DiceBag
  | 0, bag => ([], bag)
  | n + 1, bag =>
      let r := DiceBag.try_consume 1 bag
      let rest := consumeRun n r.2
      (r.1 :: rest.1, rest.2)

/-- Effect of draining `lost` many `DiceLostEvent`s: each triggers
`dice_bag.try_consume::<1>()` with the result discarded. -/
def applyLost : Nat → DiceBag → DiceBag
  | 0, bag => bag
  | n + 1, bag => applyLost n (DiceBag.try_consume 1 bag).2

/-- Models `manage_dice_events`: first every queued `DiceLostEvent` triggers
`try_consume::<1>`, then every queued `DiceOwnedEvent(number)` triggers
`push(number)`. -/
def manage_dice_events (lost : Nat) (owned : List DiceNumber) (bag : DiceBag) : DiceBag :=
  owned.foldl DiceBag.push (applyLost lost bag)

/-- Models Rust's `Iterator::min_by_key` (ties resolved to the earliest
element, as in Rust): the element of the list minimising `key`, or `none`
for the empty list. -/
def minByKey {α : Type} (key : α → ℤ) : List α → Option α
  | [] => none
  | a :: rest =>
      match minByKey key rest with
      | none => some a
      | some b => if key b < key a then some b else some a

/-- The mutable per-ship state touched by `setup_ships_target_lock`:
the ship's translation and its `ShipTarget(Option<Entity>)` component. -/
structure ShipState where
  pos : Vec2
  target : Option Nat
deriving DecidableEq, Repr

/-- The `_otherwise` arm of the per-ship `match` in `setup_ships_target_lock`:
scan the asteroid query for the entity with minimal squared distance to the
ship and accept it as the new target only when it is within
`SHIP_TRIGGER_MAX_DISTANCE` of the ship and within
`SHIP_MAX_DISTANCE_FROM_PLANET_INTEREST` of the planet; in every other case
the `ship_target.0` field is left exactly as it was (in particular a stale
reference is not cleared here). -/
def acquireNearest (planetPos : Vec2) (asteroids : List (Nat × Vec2))
    (shipPos : Vec2) (target : Option Nat) : Option Nat :=
  match minByKey (fun p => distSq p.2 shipPos) asteroids with
  | some (e, apos) =>
      if distSq apos shipPos ≤ SHIP_TRIGGER_MAX_DISTANCE ^ 2
          ∧ distSq planetPos apos ≤ SHIP_MAX_DISTANCE_FROM_PLANET_INTEREST ^ 2 then
        some e
      else
        target
  | none => target

/-- Body of the per-ship loop of `setup_ships_target_lock`.  `asteroids` is
the live-asteroid query as an association list from entity id to translation.
Matching the source: if the current target still resolves, it is cleared
exactly when the asteroid's distance from the planet exceeds
`SHIP_MAX_DISTANCE_FROM_PLANET_INTEREST` (squared comparison, see header);
otherwise (`_otherwise` in the source: no target, or a target whose asteroid
the query no longer contains) the nearest-asteroid acquisition runs. -/
def targetLockShip (planetPos : Vec2) (asteroids : List (Nat × Vec2))
    (shipPos : Vec2) (target : Option Nat) : Option Nat :=
  match target.map (fun e => List.lookup e asteroids) with
  | some (some apos) =>
      if SHIP_MAX_DISTANCE_FROM_PLANET_INTEREST ^ 2 < distSq planetPos apos then
        none
      else
        target
  | _ => acquireNearest planetPos asteroids shipPos target

/-- Models `setup_ships_target_lock`: when the asteroid query is empty the
whole body is skipped (`if !asteroids.is_empty()`), otherwise every ship's
target component is updated by the per-ship loop body. -/
def setup_ships_target_lock (planetPos : Vec2) (asteroids : List (Nat × Vec2))
    (ships : List ShipState) : List ShipState :=
  if asteroids.isEmpty then
    ships
  else
    ships.map fun s => { s with target := targetLockShip planetPos asteroids s.pos s.target }

/-- Models glam's `Vec3::normalize_or_zero` on a vector with integer
components (exact arithmetic): the zero vector normalizes to zero — the
reciprocal length `1/‖v‖` is not finite and positive — and any other vector
is divided by its Euclidean length.  Only the `x`/`y` components are kept
(`.xy()` in the source; `z` is always zero). -/
noncomputable def normalize_or_zero (v : Vec2) : ℝ × ℝ :=
  if v = ⟨0, 0⟩ then
    (0, 0)
  else
    ((v.x : ℝ) / Real.sqrt ((v.x : ℝ) ^ 2 + (v.y : ℝ) ^ 2),
     (v.y : ℝ) / Real.sqrt ((v.x : ℝ) ^ 2 + (v.y : ℝ) ^ 2))

/-- `direction * SHIP_SPEED * time.delta_seconds()`: the velocity command the
movement controller hands to the physics service, with `dt` the elapsed
seconds of the step as an exact rational. -/
noncomputable def scaledDir (v : Vec2) (dt : ℚ) : ℝ × ℝ :=
  ((normalize_or_zero v).1 * (SHIP_SPEED : ℝ) * (dt : ℝ),
   (normalize_or_zero v).2 * (SHIP_SPEED : ℝ) * (dt : ℝ))

/-- Body of the per-ship loop of `move_ships`: a ship whose target resolves
to a live asteroid steers toward it; otherwise (no target, or a stale target
whose asteroid no longer exists) it steers back toward the planet while at
least `SHIP_PLANET_SIGHT` away from it, and station-keeps (zero velocity)
within that radius. -/
noncomputable def move_ships (dt : ℚ) (planetPos : Vec2) (asteroids : List (Nat × Vec2))
    (shipPos : Vec2) (target : Option Nat) : ℝ × ℝ :=
  match target.map (fun e => List.lookup e asteroids) with
  | some (some apos) => scaledDir (vsub apos shipPos) dt
  | _ =>
      if SHIP_PLANET_SIGHT ^ 2 ≤ distSq planetPos shipPos then
        scaledDir (vsub planetPos shipPos) dt
      else
        (0, 0)

/-- The per-asteroid components touched by the bump handler: translation
plus the mutable `ExternalImpulse` (linear impulse and torque, real-valued
because bump impulses involve normalized directions). -/
structure AsteroidPhys where
  pos : Vec2
  impulse : ℝ × ℝ
  torque : ℝ

/-- The entity-classification chain of
`bump_asteroids_on_ship_collision_with_bump_power` for one
`CollisionEvent::Started(e1, e2, _)`: first try `e1` as a bump-ship and
`e2` as an asteroid, then the swapped order; yield the ship translation and
the matched asteroid id, or `none` when neither order matches. -/
def bumpMatch (ships : List (Nat × Vec2)) (asteroids : List (Nat × AsteroidPhys))
    (ev : Nat × Nat) : Option (Vec2 × Nat) :=
  match List.lookup ev.1 ships, List.lookup ev.2 asteroids with
  | some shipPos, some _ => some (shipPos, ev.2)
  | _, _ =>
      match List.lookup ev.2 ships, List.lookup ev.1 asteroids with
      | some shipPos, some _ => some (shipPos, ev.1)
      | _, _ => none

/-- Models the effect of `bump_asteroids_on_ship_collision_with_bump_power`
on one contact-start event: when the event pairs a bump-ship with an
asteroid (in either order), the asteroid's `ExternalImpulse` is overwritten
with `normalize_or_zero(asteroid_pos - ship_pos) * SHIP_BUMP_FORCE` and a
torque impulse of `0.001`; nothing is despawned and nothing else changes. -/
noncomputable def bump_asteroids_on_ship_collision_with_bump_power
    (ships : List (Nat × Vec2)) (asteroids : List (Nat × AsteroidPhys))
    (ev : Nat × Nat) : List (Nat × AsteroidPhys) :=
  match bumpMatch ships asteroids ev with
  | some (shipPos, aid) =>
      asteroids.map fun p =>
        if p.1 = aid then
          (p.1,
           { p.2 with
              impulse := ((normalize_or_zero (vsub p.2.pos shipPos)).1 * (SHIP_BUMP_FORCE : ℝ),
                          (normalize_or_zero (vsub p.2.pos shipPos)).2 * (SHIP_BUMP_FORCE : ℝ)),
              torque := 1 / 1000 })
        else p
  | none => asteroids

/-- The entity-classification chain of
`destroy_asteroids_on_ship_collision_with_destroy_power` for one event:
the destroy-ship query carries no components (`Query<()>`), so the ship
side is a bare membership test; yield the matched asteroid id and
translation. -/
def destroyMatch (destroyShips : List Nat) (asteroids : List (Nat × Vec2))
    (ev : Nat × Nat) : Option (Nat × Vec2) :=
  match destroyShips.contains ev.1, List.lookup ev.2 asteroids with
  | true, some apos => some (ev.2, apos)
  | _, _ =>
      match destroyShips.contains ev.2, List.lookup ev.1 asteroids with
      | true, some apos => some (ev.1, apos)
      | _, _ => none

/-- Models the effect of `destroy_asteroids_on_ship_collision_with_destroy_power`
on one contact-start event, given the frame's raw RNG draw: when the event
pairs a destroy-ship with an asteroid (in either order), the asteroid entity
is despawned and one `DiceLoot` sprite is spawned at the asteroid's last
translation carrying `DiceNumber::from_rng` of the draw.  The first
component is the asteroid query after the command flush, the second the list
of loot spawned by this event.  Note the system holds no
`EventWriter<DiceOwnedEvent>` (nor any other event writer): it enqueues no
inventory event. -/
def destroy_asteroids_on_ship_collision_with_destroy_power
    (destroyShips : List Nat) (asteroids : List (Nat × Vec2)) (raw : Nat)
    (ev : Nat × Nat) : List (Nat × Vec2) × List (Vec2 × DiceNumber) :=
  match destroyMatch destroyShips asteroids ev with
  | some (aid, apos) =>
      (asteroids.filter (fun p => p.1 ≠ aid), [(apos, DiceNumber.from_rng raw)])
  | none => (asteroids, [])

/-- A live `DiceLoot` entity as seen by `collect_dices_by_mouse_clicking`:
entity id, the sprite's `custom_size` (set to `Some(Vec2::splat(25.0))` at
spawn), the global translation and the stored face value. -/
structure Loot where
  id : Nat
  customSize : Option Vec2
  pos : Vec2
  number : DiceNumber
deriving DecidableEq, Repr

/-- The point-in-box test of `collect_dices_by_mouse_clicking`, exactly as
the source computes it: the box edges are `translation ± size` — the FULL
`custom_size` is used as the half-extent on each axis, not half of it. -/
def hitTest (worldPos translation size : Vec2) : Bool :=
  let b_left := translation.x - size.x
  let b_right := translation.x + size.x
  let b_top := translation.y - size.y
  let b_bottom := translation.y + size.y
  (decide (b_left ≤ worldPos.x) && decide (worldPos.x ≤ b_right))
    && (decide (b_top ≤ worldPos.y) && decide (worldPos.y ≤ b_bottom))

/-- Modelled from the spec (§4.7, claim C8): the hit box the spec describes,
whose half-extent on each axis is the loot's display HALF-size, `size/2`
(exact division in `ℚ`).  Stated only to compare against `hitTest`. -/
def specHalfSizeHit (worldPos translation size : Vec2) : Prop :=
  |(worldPos.x : ℚ) - (translation.x : ℚ)| ≤ (size.x : ℚ) / 2
    ∧ |(worldPos.y : ℚ) - (translation.y : ℚ)| ≤ (size.y : ℚ) / 2

/-- Whether the click at `worldPos` hits the loot: a sprite without a
`custom_size` is skipped by the `if let Some(size)` in the source. -/
def lootHit (worldPos : Vec2) (l : Loot) : Bool :=
  match l.customSize with
  | some size => hitTest worldPos l.pos size
  | none => false

/-- Models the loop body of `collect_dices_by_mouse_clicking` once the click
has been translated to the world position `worldPos`: every live loot whose
box contains the point is despawned and a `DiceOwnedEvent` with its face
value is sent — the loop does not stop at the first hit.  Returns the
despawned entity ids and the sent events, in query order. -/
def collect_dices_by_mouse_clicking (worldPos : Vec2) :
    List Loot → List Nat × List DiceNumber
  | [] => ([], [])
  | l :: rest =>
      let r := collect_dices_by_mouse_clicking worldPos rest
      match l.customSize with
      | some size =>
          if hitTest worldPos l.pos size then (l.id :: r.1, l.number :: r.2) else r
      | none => r

/-- The `DiceOwnedEvent`s written during one frame.  Of all systems
registered in `main` (`spawn_asteroids`, `setup_ships_target_lock`,
`move_ships`, `despawn_asteroids_on_planet_collision`,
`remove_dice_from_bag_on_planet_collision`,
`bump_asteroids_on_ship_collision_with_bump_power`,
`destroy_asteroids_on_ship_collision_with_destroy_power`,
`collect_dices_by_mouse_clicking`, `manage_dice_events`, `draw_dice_bag`),
only `collect_dices_by_mouse_clicking` holds an
`EventWriter<DiceOwnedEvent>`; so a frame without a left click (or with a
click that hits nothing) enqueues no token-gained event, whatever contacts
the collision systems process. -/
def frameDiceOwnedEvents (click : Option Vec2) (loots : List Loot) : List DiceNumber :=
  match click with
  | some worldPos => (collect_dices_by_mouse_clicking worldPos loots).2
  | none => []

end CombineDefend

namespace CombineDefend

/-! Theorems about the dice bag (claims C3, C4, C10). -/

theorem pushAll_eq (vs : List DiceNumber) : ∀ bag : DiceBag, pushAll vs bag = bag ++ vs := by
  induction vs with
  | nil => intro bag; simp [pushAll]
  | cons v vs ih =>
      intro bag
      simp only [pushAll, List.foldl_cons] at *
      rw [ih (DiceBag.push bag v)]
      simp [DiceBag.push]

theorem try_consume_one_cons (v : DiceNumber) (bag : List DiceNumber) :
    DiceBag.try_consume 1 (v :: bag) = (some [v], bag) := by
  simp [DiceBag.try_consume]

/-- C3: `try_consume(n)` on a bag shorter than `n` fails and leaves the bag
unchanged (no partial removal); draining a `DiceLostEvent` against the empty
bag is silently absorbed, leaving the empty bag. -/
theorem try_consume_insufficient (n : Nat) (bag : DiceBag) (h : bag.length < n) :
    DiceBag.try_consume n bag = (none, bag)
      ∧ manage_dice_events 1 [] [] = ([] : DiceBag) := by
  constructor
  · unfold DiceBag.try_consume
    rw [if_neg (by omega)]
  · rfl

theorem try_consume_insufficient_witness :
    ([DiceNumber.Three] : DiceBag).length < 2
      ∧ (DiceBag.try_consume 2 [DiceNumber.Three] = (none, [DiceNumber.Three])
          ∧ manage_dice_events 1 [] [] = ([] : DiceBag)) :=
  ⟨by decide, try_consume_insufficient 2 [DiceNumber.Three] (by decide)⟩

/-- C4: pushing `v1..vn` into an initially empty bag and then calling
`try_consume(1)` `n` times succeeds each time and returns `v1, v2, …, vn`
in that order (FIFO), ending with the empty bag. -/
theorem bag_fifo_order (vs : List DiceNumber) :
    consumeRun vs.length (pushAll vs []) = (vs.map (fun v => some [v]), ([] : DiceBag)) := by
  rw [pushAll_eq vs [], List.nil_append]
  induction vs with
  | nil => rfl
  | cons v vs ih =>
      simp only [List.length_cons, consumeRun, try_consume_one_cons, ih, List.map_cons]

/-- C10: `try_consume(0)` always succeeds, returns the empty result and
leaves the bag unchanged. -/
theorem try_consume_zero (bag : DiceBag) :
    DiceBag.try_consume 0 bag = (some [], bag) := by
  simp [DiceBag.try_consume]

/-! Theorems relating the squared-distance embedding to the source's
`Vec3::distance` comparisons. -/

theorem dist_le_iff (p q : Vec2) (r : ℤ) (hr : 0 ≤ r) :
    dist p q ≤ (r : ℝ) ↔ distSq p q ≤ r ^ 2 := by
  unfold dist
  rw [Real.sqrt_le_left (by exact_mod_cast hr)]
  constructor
  · intro h; exact_mod_cast h
  · intro h; exact_mod_cast h

theorem lt_dist_iff (p q : Vec2) (r : ℤ) (hr : 0 ≤ r) :
    (r : ℝ) < dist p q ↔ r ^ 2 < distSq p q := by
  unfold dist
  rw [Real.lt_sqrt (by exact_mod_cast hr)]
  constructor
  · intro h; exact_mod_cast h
  · intro h; exact_mod_cast h

/-! Theorems about the targeting system (claims C1, C5). -/

theorem minByKey_mem {α : Type} (key : α → ℤ) (l : List α) (b : α)
    (h : minByKey key l = some b) : b ∈ l := by
  induction l with
  | nil => simp [minByKey] at h
  | cons a rest ih =>
      rw [minByKey] at h
      split at h
      · cases h
        exact List.mem_cons_self _ _
      · split at h
        · cases h
          exact List.mem_cons_of_mem _ (ih (by assumption))
        · cases h
          exact List.mem_cons_self _ _

theorem lookup_isSome_of_mem (l : List (Nat × Vec2)) (a : Nat) (v : Vec2)
    (h : (a, v) ∈ l) : (List.lookup a l).isSome := by
  induction l with
  | nil => simp at h
  | cons p t ih =>
      rcases List.mem_cons.mp h with h1 | h2
      · rw [← h1]
        simp [List.lookup]
      · by_cases hk : a = p.1
        · simp [List.lookup, hk]
        · simpa [List.lookup, beq_false_of_ne hk] using ih h2

theorem acquireNearest_cases (planetPos : Vec2) (asteroids : List (Nat × Vec2))
    (shipPos : Vec2) (target : Option Nat) :
    acquireNearest planetPos asteroids shipPos target = none
      ∨ (∃ a, acquireNearest planetPos asteroids shipPos target = some a
              ∧ (List.lookup a asteroids).isSome)
      ∨ acquireNearest planetPos asteroids shipPos target = target := by
  unfold acquireNearest
  split
  · next a apos hm =>
      split
      · next hc =>
          right; left
          exact ⟨a, rfl,
            lookup_isSome_of_mem asteroids a apos (minByKey_mem _ _ _ hm)⟩
      · right; right; rfl
  · right; right; rfl

/-- C1 (amended): after the per-ship targeting body runs, the ship's target
is `None`, or refers to a currently-live asteroid, or is the ship's previous
target left unchanged — a target referring to a destroyed asteroid is NOT
cleared the step after the referent dies (it survives whenever no in-range
replacement is acquired, and whenever the asteroid query is empty); but such
a stale target never drives movement: `move_ships` treats it exactly like
`None`. -/
theorem targeting_stale_target_behavior (planetPos : Vec2)
    (asteroids : List (Nat × Vec2)) (shipPos : Vec2) (target : Option Nat)
    (dt : ℚ) (e : Nat) (h : List.lookup e asteroids = none) :
    (targetLockShip planetPos asteroids shipPos target = none
      ∨ (∃ a, targetLockShip planetPos asteroids shipPos target = some a
              ∧ (List.lookup a asteroids).isSome)
      ∨ targetLockShip planetPos asteroids shipPos target = target)
    ∧ move_ships dt planetPos asteroids shipPos (some e)
        = move_ships dt planetPos asteroids shipPos none := by
  constructor
  · unfold targetLockShip
    cases target with
    | none =>
        simp only [Option.map_none']
        exact acquireNearest_cases planetPos asteroids shipPos none
    | some t =>
        simp only [Option.map_some']
        cases hl : List.lookup t asteroids with
        | none =>
            exact acquireNearest_cases planetPos asteroids shipPos (some t)
        | some apos =>
            by_cases hc : SHIP_MAX_DISTANCE_FROM_PLANET_INTEREST ^ 2 < distSq planetPos apos
            · left; simp [hc]
            · right; right; simp [hc]
  · unfold move_ships
    simp only [Option.map_some', Option.map_none', h]

/-- C1 as stated is false on the code: a ship whose target references the
destroyed asteroid id 3 keeps that dangling reference after targeting runs,
because the only live asteroid (id 7, at distance 600 from the ship) is
outside the 400-unit trigger radius, so the `_otherwise` arm leaves
`ship_target.0` untouched. -/
theorem stale_target_not_cleared_cex :
    setup_ships_target_lock ⟨0, 0⟩ [(7, ⟨600, 0⟩)] [⟨⟨0, 0⟩, some 3⟩]
        = [⟨⟨0, 0⟩, some 3⟩]
      ∧ List.lookup 3 [(7, (⟨600, 0⟩ : Vec2))] = none := by
  decide

theorem targeting_stale_target_behavior_witness :
    List.lookup 4 [(7, (⟨100, 0⟩ : Vec2))] = none
      ∧ ((targetLockShip ⟨0, 0⟩ [(7, ⟨100, 0⟩)] ⟨0, 0⟩ (some 4) = none
          ∨ (∃ a, targetLockShip ⟨0, 0⟩ [(7, ⟨100, 0⟩)] ⟨0, 0⟩ (some 4) = some a
                  ∧ (List.lookup a [(7, (⟨100, 0⟩ : Vec2))]).isSome)
          ∨ targetLockShip ⟨0, 0⟩ [(7, ⟨100, 0⟩)] ⟨0, 0⟩ (some 4) = some 4)
        ∧ move_ships 1 ⟨0, 0⟩ [(7, ⟨100, 0⟩)] ⟨0, 0⟩ (some 4)
            = move_ships 1 ⟨0, 0⟩ [(7, ⟨100, 0⟩)] ⟨0, 0⟩ none) :=
  ⟨by decide, targeting_stale_target_behavior ⟨0, 0⟩ [(7, ⟨100, 0⟩)] ⟨0, 0⟩ (some 4) 1 4 (by decide)⟩

/-- C5: for a ship whose target still resolves to a live asteroid, the target
is cleared exactly when the asteroid's (squared) distance from the planet
exceeds the (squared) max-interest threshold, and retained otherwise — for
every ship position, i.e. independent of the ship-to-asteroid distance and
in particular also beyond the trigger radius. -/
theorem target_retention_hysteresis (planetPos : Vec2)
    (asteroids : List (Nat × Vec2)) (shipPos apos : Vec2) (e : Nat)
    (h : List.lookup e asteroids = some apos) :
    setup_ships_target_lock planetPos asteroids [⟨shipPos, some e⟩]
      = [⟨shipPos,
          if SHIP_MAX_DISTANCE_FROM_PLANET_INTEREST ^ 2 < distSq planetPos apos then
            none
          else
            some e⟩] := by
  have hne : asteroids.isEmpty = false := by
    cases asteroids with
    | nil => simp [List.lookup] at h
    | cons _ _ => rfl
  unfold setup_ships_target_lock
  rw [hne]
  simp only [Bool.false_eq_true, if_false, List.map_cons, List.map_nil]
  unfold targetLockShip
  simp only [Option.map_some', h]

/-- Witness for C5 at a concrete input: the target asteroid sits 300 from
the planet (within max-interest 500) while the ship is 9700 away (far beyond
the 400 trigger radius); the target is retained. -/
theorem target_retention_hysteresis_witness :
    List.lookup 1 [(1, (⟨300, 0⟩ : Vec2))] = some ⟨300, 0⟩
      ∧ setup_ships_target_lock ⟨0, 0⟩ [(1, ⟨300, 0⟩)] [⟨⟨10000, 0⟩, some 1⟩]
          = [⟨⟨10000, 0⟩,
              if SHIP_MAX_DISTANCE_FROM_PLANET_INTEREST ^ 2 < distSq ⟨0, 0⟩ ⟨300, 0⟩ then
                none
              else
                some 1⟩] :=
  ⟨by decide, target_retention_hysteresis ⟨0, 0⟩ [(1, ⟨300, 0⟩)] ⟨10000, 0⟩ ⟨300, 0⟩ 1 (by decide)⟩

/-- C7: restricted to the six raw draws `0..=5` actually produced by
`rng.gen_range(0..6)`, the `match` in `DiceNumber::from_rng` is a bijection
onto the six faces: it is injective, surjective, and every face has exactly
one preimage among the six equally likely draws, hence probability 1/6. -/
theorem dice_face_uniform :
    ((List.range 6).map DiceNumber.from_rng).Nodup
      ∧ (∀ d : DiceNumber, d ∈ (List.range 6).map DiceNumber.from_rng)
      ∧ (∀ d : DiceNumber,
          ((List.range 6).filter (fun r => DiceNumber.from_rng r = d)).length = 1) := by
  decide

/-! Theorems about the collision handlers (claim C2). -/

/-- C2 (amended): a contact-start event pairing a bump-ship and an asteroid
(in either order) never despawns the asteroid — the bump handler only
rewrites the asteroid's impulse, keeping the entity list intact; a
contact-start event pairing a destroy-ship and an asteroid despawns exactly
that asteroid and spawns exactly one loot token at the asteroid's last
position whose face value is one of the six die faces; the token-gained
event is NOT enqueued here — it is sent only when the loot is later
clicked. -/
theorem collision_role_exclusivity
    (bumpShips : List (Nat × Vec2)) (bumpAsteroids : List (Nat × AsteroidPhys))
    (destroyShips : List Nat) (asteroids : List (Nat × Vec2)) (raw : Nat)
    (ev : Nat × Nat) (aid : Nat) (apos : Vec2)
    (h : destroyMatch destroyShips asteroids ev = some (aid, apos)) :
    ((bump_asteroids_on_ship_collision_with_bump_power bumpShips bumpAsteroids ev).map Prod.fst
        = bumpAsteroids.map Prod.fst)
    ∧ destroy_asteroids_on_ship_collision_with_destroy_power destroyShips asteroids raw ev
        = (asteroids.filter (fun p => p.1 ≠ aid), [(apos, DiceNumber.from_rng raw)]) := by
  constructor
  · unfold bump_asteroids_on_ship_collision_with_bump_power
    split
    · next shipPos aid' _ =>
        rw [List.map_map]
        apply List.map_congr_left
        intro p _
        by_cases hp : p.1 = aid' <;> simp [hp]
    · rfl
  · unfold destroy_asteroids_on_ship_collision_with_destroy_power
    rw [h]

theorem collision_role_exclusivity_witness :
    destroyMatch [5] [(9, (⟨10, 0⟩ : Vec2))] (5, 9) = some (9, ⟨10, 0⟩)
      ∧ (((bump_asteroids_on_ship_collision_with_bump_power [] [] (5, 9)).map Prod.fst
            = ([] : List (Nat × AsteroidPhys)).map Prod.fst)
        ∧ destroy_asteroids_on_ship_collision_with_destroy_power [5] [(9, ⟨10, 0⟩)] 2 (5, 9)
            = ([(9, (⟨10, 0⟩ : Vec2))].filter (fun p => p.1 ≠ 9),
               [(⟨10, 0⟩, DiceNumber.from_rng 2)])) :=
  ⟨by decide,
   collision_role_exclusivity [] [] [5] [(9, ⟨10, 0⟩)] 2 (5, 9) 9 ⟨10, 0⟩ (by decide)⟩

/-- C2 as stated is false on the code: on the destroy-ship 5 / asteroid 9
contact the asteroid is despawned and one loot spawned, but the number of
token-gained (`DiceOwnedEvent`) events enqueued in that frame is zero, not
exactly one — the destroy handler holds no `EventWriter<DiceOwnedEvent>`;
only the click handler sends that event, later, when the loot is picked
up. -/
theorem destroy_collision_no_owned_event_cex :
    (destroy_asteroids_on_ship_collision_with_destroy_power [5] [(9, ⟨10, 0⟩)] 3 (5, 9)).1 = []
      ∧ ((destroy_asteroids_on_ship_collision_with_destroy_power
            [5] [(9, ⟨10, 0⟩)] 3 (5, 9)).2).length = 1
      ∧ frameDiceOwnedEvents none [⟨1, some ⟨25, 25⟩, ⟨10, 0⟩, DiceNumber.Three⟩] = [] := by
  decide

/-! Theorems about the pointer pick-up handler (claims C8, C9). -/

/-- C8 as stated is false on the code: the source uses the loot's FULL
`custom_size` as the box half-extent (`translation ± size`), not the
half-size.  A click at `(20, 0)` on a loot centred at the origin with
display size `25 × 25` is inside the code's box (`|20| ≤ 25`) yet outside
the spec's half-size box (`|20| > 25/2`). -/
theorem hit_box_half_size_cex :
    hitTest ⟨20, 0⟩ ⟨0, 0⟩ ⟨25, 25⟩ = true
      ∧ ¬ specHalfSizeHit ⟨20, 0⟩ ⟨0, 0⟩ ⟨25, 25⟩ := by
  constructor
  · decide
  · intro hspec
    have h1 := hspec.1
    norm_num [abs_le] at h1

/-- C8 (amended): the pick-up hit test succeeds exactly when the click point
lies inside the axis-aligned box centred at the loot whose half-extent on
each axis is the loot's FULL display size (`size`, not `size/2`). -/
theorem hit_box_full_size (worldPos translation size : Vec2) :
    hitTest worldPos translation size = true
      ↔ |worldPos.x - translation.x| ≤ size.x ∧ |worldPos.y - translation.y| ≤ size.y := by
  unfold hitTest
  simp only [Bool.and_eq_true, decide_eq_true_eq, abs_le]
  constructor
  · rintro ⟨⟨h1, h2⟩, h3, h4⟩
    exact ⟨⟨by omega, by omega⟩, ⟨by omega, by omega⟩⟩
  · rintro ⟨⟨h1, h2⟩, ⟨h3, h4⟩⟩
    exact ⟨⟨by omega, by omega⟩, ⟨by omega, by omega⟩⟩

/-- C9: one click collects every live loot whose box contains the click
point: the despawned entities and the emitted token-gained events are
exactly the hit loots' ids and face values, in query order — a click hitting
`k` loots despawns all `k` and sends `k` events; the loop does not stop at
the first hit. -/
theorem click_collects_all_hits (worldPos : Vec2) (loots : List Loot) :
    collect_dices_by_mouse_clicking worldPos loots
      = ((loots.filter (lootHit worldPos)).map Loot.id,
         (loots.filter (lootHit worldPos)).map Loot.number) := by
  induction loots with
  | nil => rfl
  | cons l rest ih =>
      cases hs : l.customSize with
      | none =>
          simp [collect_dices_by_mouse_clicking, List.filter_cons, lootHit, hs, ih]
      | some size =>
          by_cases hh : hitTest worldPos l.pos size <;>
            simp [collect_dices_by_mouse_clicking, List.filter_cons, lootHit, hs, hh, ih]

/-! Theorems about the movement controller (claim C6). -/

theorem normalize_component_bound (v : Vec2) :
    |(normalize_or_zero v).1| ≤ 1 ∧ |(normalize_or_zero v).2| ≤ 1 := by
  unfold normalize_or_zero
  by_cases hv : v = ⟨0, 0⟩
  · rw [if_pos hv]
    norm_num
  · rw [if_neg hv]
    have hxy : v.x ≠ 0 ∨ v.y ≠ 0 := by
      by_contra hcon
      push_neg at hcon
      obtain ⟨x, y⟩ := v
      exact hv (by simp_all)
    have hsum : (0 : ℝ) < (v.x : ℝ) ^ 2 + (v.y : ℝ) ^ 2 := by
      rcases hxy with hx | hy
      · have hx' : ((v.x : ℝ)) ≠ 0 := by exact_mod_cast hx
        have := (sq_nonneg ((v.y : ℝ)))
        have hx2 : (0 : ℝ) < (v.x : ℝ) ^ 2 :=
          (sq_nonneg _).lt_of_ne (Ne.symm (pow_ne_zero 2 hx'))
        linarith
      · have hy' : ((v.y : ℝ)) ≠ 0 := by exact_mod_cast hy
        have := (sq_nonneg ((v.x : ℝ)))
        have hy2 : (0 : ℝ) < (v.y : ℝ) ^ 2 :=
          (sq_nonneg _).lt_of_ne (Ne.symm (pow_ne_zero 2 hy'))
        linarith
    have hs : 0 < Real.sqrt ((v.x : ℝ) ^ 2 + (v.y : ℝ) ^ 2) := Real.sqrt_pos.mpr hsum
    constructor
    · rw [abs_div, abs_of_pos hs, div_le_one hs]
      calc |(v.x : ℝ)| = Real.sqrt ((v.x : ℝ) ^ 2) := (Real.sqrt_sq_eq_abs _).symm
        _ ≤ Real.sqrt ((v.x : ℝ) ^ 2 + (v.y : ℝ) ^ 2) :=
            Real.sqrt_le_sqrt (by nlinarith [sq_nonneg ((v.y : ℝ))])
    · rw [abs_div, abs_of_pos hs, div_le_one hs]
      calc |(v.y : ℝ)| = Real.sqrt ((v.y : ℝ) ^ 2) := (Real.sqrt_sq_eq_abs _).symm
        _ ≤ Real.sqrt ((v.x : ℝ) ^ 2 + (v.y : ℝ) ^ 2) :=
            Real.sqrt_le_sqrt (by nlinarith [sq_nonneg ((v.x : ℝ))])

theorem scaledDir_bound (v : Vec2) (dt : ℚ) :
    |(scaledDir v dt).1| ≤ (SHIP_SPEED : ℝ) * |(dt : ℝ)|
      ∧ |(scaledDir v dt).2| ≤ (SHIP_SPEED : ℝ) * |(dt : ℝ)| := by
  obtain ⟨h1, h2⟩ := normalize_component_bound v
  have hdt : (0 : ℝ) ≤ |(dt : ℝ)| := abs_nonneg _
  have hS : |(SHIP_SPEED : ℝ)| = (SHIP_SPEED : ℝ) := abs_of_pos (by norm_num [SHIP_SPEED])
  have hSpos : (0 : ℝ) < (SHIP_SPEED : ℝ) := by norm_num [SHIP_SPEED]
  unfold scaledDir
  constructor
  · rw [abs_mul, abs_mul, hS]
    calc |(normalize_or_zero v).1| * (SHIP_SPEED : ℝ) * |(dt : ℝ)|
        ≤ 1 * (SHIP_SPEED : ℝ) * |(dt : ℝ)| :=
          mul_le_mul_of_nonneg_right (mul_le_mul_of_nonneg_right h1 hSpos.le) hdt
      _ = (SHIP_SPEED : ℝ) * |(dt : ℝ)| := by ring
  · rw [abs_mul, abs_mul, hS]
    calc |(normalize_or_zero v).2| * (SHIP_SPEED : ℝ) * |(dt : ℝ)|
        ≤ 1 * (SHIP_SPEED : ℝ) * |(dt : ℝ)| :=
          mul_le_mul_of_nonneg_right (mul_le_mul_of_nonneg_right h2 hSpos.le) hdt
      _ = (SHIP_SPEED : ℝ) * |(dt : ℝ)| := by ring

/-- C6: normalizing the zero vector yields the zero vector, and for every
ship/target/planet configuration — including a ship exactly coincident with
its target asteroid or with the planet — each component of the velocity the
movement controller emits is a well-defined real number bounded in absolute
value by `SHIP_SPEED * |dt|`: in exact arithmetic no division by a zero
length ever happens and no NaN/undefined value can arise. -/
theorem movement_zero_vector_safety :
    normalize_or_zero ⟨0, 0⟩ = (0, 0)
      ∧ ∀ (dt : ℚ) (planetPos : Vec2) (asteroids : List (Nat × Vec2))
          (shipPos : Vec2) (target : Option Nat),
          |(move_ships dt planetPos asteroids shipPos target).1|
              ≤ (SHIP_SPEED : ℝ) * |(dt : ℝ)|
            ∧ |(move_ships dt planetPos asteroids shipPos target).2|
              ≤ (SHIP_SPEED : ℝ) * |(dt : ℝ)| := by
  constructor
  · rw [normalize_or_zero, if_pos rfl]
  · intro dt planetPos asteroids shipPos target
    have hpos : (0 : ℝ) ≤ (SHIP_SPEED : ℝ) * |(dt : ℝ)| :=
      mul_nonneg (by norm_num [SHIP_SPEED]) (abs_nonneg _)
    unfold move_ships
    split
    · exact scaledDir_bound _ dt
    · split
      · exact scaledDir_bound _ dt
      · constructor <;> simpa using hpos

end CombineDefend
